import Mathlib

/-!
Shallow embedding of the TelegrativeAI Telegram bot.

Sources embedded here:
- src/telegram_process.py : check_user, start, handle_file, get_message,
  send_image, download_audio_to_local, audio, off, error_message
- src/model_manager.py    : OpenAIModelManager
- src/main.py             : configure_handlers (handler registration)
- src/helpers/langchain_helper.py : rag_with_documents,
  rag_with_documents_from_text (prompt construction and context concatenation)

External collaborators (the Telegram transport, the OpenAI-hosted models and
the FAISS vector store) are modelled as parameters: an abstract validity
predicate for the API key, abstract chat/image functions, and the retrieved
document list as an input. Machine-level Python details that the claims
depend on are embedded faithfully: truthiness of strings, string slicing,
substring membership, startswith, and exception propagation (modelled with
explicit raised flags or Except).
-/

namespace TelegrativeAI

/-- Python substring membership pat in cs : true when pat occurs as a
contiguous run of characters anywhere in cs (including as a suffix). -/
def containsSub (pat : List Char) : List Char → Bool
  | [] => pat.isPrefixOf []
  | c :: rest => pat.isPrefixOf (c :: rest) || containsSub pat rest

/-- Python str.lower, character by character (Char.toLower performs the ASCII
case mapping, which covers every character the embedded code compares). -/
def pyLower (s : String) : List Char := s.data.map Char.toLower

/-- Python s.startswith(pre) : code-point prefix test. -/
def pyStartsWith (s pre : String) : Bool := pre.data.isPrefixOf s.data

/-- Python truthiness of an optional string: None and the empty string are
falsy, every other string is truthy (used for the if data: test). -/
def dataTruthy : Option String → Bool
  | none => false
  | some s => !s.data.isEmpty

/-- The per-user session store context.user_data : maps a Telegram user id to
the stored OpenAIModelManager, which we represent by the API key it was
constructed from (the key determines the whole manager configuration). -/
abbrev SessionMap := Nat → Option String

/-- The empty session store (fresh process, no user has validated a key). -/
def emptyMap : SessionMap := fun _ => none

/-- One outbound reply rendered by a handler. -/
inductive Reply where
  | text (s : String)
  | markdown (s : String)
  | keyboard (prompt : String)
  | photo (url caption : String)
deriving DecidableEq

/-- Result of running one Telegram handler: the session store afterwards, the
replies sent (in order), whether an exception escaped the handler, the key
passed to OpenAIModelManager construction if validation was attempted, and
whether the handler deleted the triggering message from the chat. -/
structure HandlerResult where
  state : SessionMap
  replies : List Reply
  raised : Bool
  validatedKey : Option String
  deletedMessage : Bool

/-- The masked success echo of check_user:
f"Key : {data[:3]}*************{data[-3:]} success". -/
def maskKey (key : String) : String :=
  "Key : " ++ key.take 3 ++ "*************" ++ key.takeRight 3 ++ " success"

/-- The hello greeting of telegram_process.hello. -/
def helloText (userName : String) : String :=
  "Hello " ++ userName ++ " , What Can I Help With ?"

/-- The onboarding message of check_user (after the lstrip-per-line join the
source applies to its triple-quoted literal). -/
def startMessage : String :=
  "\nHere are the skills I can offer you,\n\n-> text chat\n-> have voice conversations\n-> create images based on your requests.\n-> analyze and review documents you provide.\n\nTo perform these tasks, you will need to provide your OpenAI API key.\nNote: Please do not share your personal information and use a test API key. If you want to delete API key, you can use /off code.\n"

namespace OpenAIModelManager

/-- OpenAIModelManager.__init__ (src/model_manager.py): builds the OpenAI and
LangChain helpers from the key and immediately calls _validate_api_key, which
issues the models-list call and raises when the key is rejected. The hosted
check is abstracted as the predicate keyValid; a raised exception is the
error case, a fully constructed manager (identified by its key) the ok case. -/
def create (keyValid : String → Bool) (api_key : String) : Except Unit String :=
  if keyValid api_key then Except.ok api_key else Except.error ()

end OpenAIModelManager

/-- telegram_process.check_user: when the user has no stored session and a
truthy key argument was supplied, construct the manager (which validates the
key and raises on rejection), echo the masked key, greet, and only then store
the manager under the user id; when no key was supplied, send the onboarding
message and the continuation keyboard; when a session already exists, greet.
An exception from construction propagates before any reply is sent and before
the store is touched. -/
def check_user (keyValid : String → Bool) (userName : String) (st : SessionMap)
    (user : Nat) (data : Option String) : HandlerResult :=
  if (st user).isNone then
    if dataTruthy data then
      let key := data.getD ""
      match OpenAIModelManager.create keyValid key with
      | Except.error _ =>
        { state := st, replies := [], raised := true,
          validatedKey := some key, deletedMessage := false }
      | Except.ok mgr =>
        { state := fun u => if u = user then some mgr else st u,
          replies := [Reply.text (maskKey key), Reply.markdown (helloText userName)],
          raised := false, validatedKey := some key, deletedMessage := false }
    else
      { state := st,
        replies := [Reply.markdown startMessage, Reply.keyboard "Would you like to continue?"],
        raised := false, validatedKey := none, deletedMessage := false }
  else
    { state := st, replies := [Reply.markdown (helloText userName)],
      raised := false, validatedKey := none, deletedMessage := false }

/-- The route chosen by telegram_process.get_message for one text update. -/
inductive MsgAction where
  | chat (prompt : String)
  | image (prompt : String)
  | enterKey (key : String)
deriving DecidableEq

/-- The branch structure of get_message: a reply-to message always goes to
chat with the combined prompt; otherwise a text whose lowercase form contains
draw goes to image generation, then a text starting with sk- enters the key
path, and anything else goes to chat unchanged. -/
def get_message_route (replyToText : Option String) (text : String) : MsgAction :=
  match replyToText with
  | some repliedText => MsgAction.chat (repliedText ++ " in addition to " ++ text)
  | none =>
    if containsSub "draw".data (pyLower text) then MsgAction.image text
    else if pyStartsWith text "sk-" then MsgAction.enterKey text
    else MsgAction.chat text

/-- telegram_process.get_message as a handler: the chat and image branches
look the session up (a missing entry raises KeyError, caught only by the
application error handler); the key branch deletes the triggering message and
calls check_user with the message text. chatFn and imageFn abstract the
hosted model calls of the stored manager. -/
def get_message (keyValid : String → Bool) (chatFn : String → String)
    (imageFn : String → String × String) (userName : String) (st : SessionMap)
    (user : Nat) (replyToText : Option String) (text : String) : HandlerResult :=
  match get_message_route replyToText text with
  | MsgAction.chat prompt =>
    match st user with
    | none =>
      { state := st, replies := [], raised := true,
        validatedKey := none, deletedMessage := false }
    | some _ =>
      { state := st, replies := [Reply.markdown (chatFn prompt)], raised := false,
        validatedKey := none, deletedMessage := false }
  | MsgAction.image prompt =>
    match st user with
    | none =>
      { state := st, replies := [], raised := true,
        validatedKey := none, deletedMessage := false }
    | some _ =>
      { state := st, replies := [Reply.photo (imageFn prompt).1 (imageFn prompt).2],
        raised := false, validatedKey := none, deletedMessage := false }
  | MsgAction.enterKey key =>
    let r := check_user keyValid userName st user (some key)
    { r with deletedMessage := true }

/-- Which retrieval operation telegram_process.handle_file dispatched to. -/
inductive FileAction where
  | answerFromText (content caption : String)
  | answerFromFile (path caption : String)
  | rejected
deriving DecidableEq

/-- telegram_process.handle_file: the caption defaults to Summarize this file
only when the message carries no caption (None test, an empty caption stays
empty); a text/plain MIME type sends the downloaded text content to
rag_with_documents_from_text, application/pdf sends the file path to
rag_with_documents, and every other MIME type gets the fixed rejection reply
with no model call. ragTextFn and ragFileFn abstract the two retrieval calls
of the stored manager. -/
def handle_file (ragTextFn ragFileFn : String → String → String)
    (mime : String) (caption : Option String) (content filePath : String) :
    FileAction × List Reply :=
  let c := match caption with
    | some s => s
    | none => "Summarize this file"
  if mime = "text/plain" then
    (FileAction.answerFromText content c, [Reply.text (ragTextFn content c)])
  else if mime = "application/pdf" then
    (FileAction.answerFromFile filePath c, [Reply.text (ragFileFn filePath c)])
  else
    (FileAction.rejected, [Reply.text "Please send the file in PDF or TXT format"])

/-- telegram_process.off: when the user has a stored session, pop it from the
session store and confirm the deletion; otherwise do nothing. -/
def off (st : SessionMap) (user : Nat) : SessionMap × List Reply :=
  if (st user).isSome then
    (fun u => if u = user then none else st u, [Reply.text "Your API Key deleted"])
  else (st, [])

/-- One handler registration of main.configure_handlers. -/
inductive HandlerSpec where
  | callbackQuery
  | command (name : String)
  | voiceMessages
  | documentMessages
  | textNonCommand
deriving DecidableEq

/-- The add_handler calls of main.configure_handlers, in registration order:
the button callback handler, the start command, the voice / document / text
message handlers (the text handler filter is filters.TEXT and not
filters.COMMAND). The error handler is registered separately through
add_error_handler and receives only exceptions, not fresh updates. -/
def configure_handlers : List HandlerSpec :=
  [HandlerSpec.callbackQuery, HandlerSpec.command "start",
   HandlerSpec.voiceMessages, HandlerSpec.documentMessages,
   HandlerSpec.textNonCommand]

/-- One inbound Telegram update, as the registered handler filters see it: a
command message (text starting with a slash, carrying the command name), a
plain non-command text message, a voice message, a document message, or a
button callback query. -/
inductive UpdateKind where
  | commandMsg (name : String)
  | textMsg (text : String)
  | voiceMsg
  | documentMsg
  | callbackQuery
deriving DecidableEq

/-- Whether a registered handler matches an inbound update, following the
python-telegram-bot filter semantics used in main.configure_handlers: a
CommandHandler matches exactly its command name, and the text MessageHandler
excludes command messages (filters.TEXT and not filters.COMMAND). -/
def handles : HandlerSpec → UpdateKind → Bool
  | HandlerSpec.callbackQuery, UpdateKind.callbackQuery => true
  | HandlerSpec.command n, UpdateKind.commandMsg m => n == m
  | HandlerSpec.voiceMessages, UpdateKind.voiceMsg => true
  | HandlerSpec.documentMessages, UpdateKind.documentMsg => true
  | HandlerSpec.textNonCommand, UpdateKind.textMsg _ => true
  | _, _ => false

/-- telegram_process.audio, for a voice update: download_audio_to_local
creates the transient file; transcription and then the chat reply run inside
the with-block; os.remove(temp_file_path) is the next statement after the
with-block, so it runs only when neither call raised. The two hosted calls
are abstracted as Except values; the result is the pair
(an exception escaped the handler, the transient file still exists on disk
after the call). -/
def audio_handler (hasVoice : Bool) (transcribeResult : Except Unit String)
    (chatResult : String → Except Unit String) : Bool × Bool :=
  if hasVoice then
    match transcribeResult with
    | Except.error _ => (true, true)
    | Except.ok voiceText =>
      match chatResult voiceText with
      | Except.error _ => (true, true)
      | Except.ok _ => (false, false)
  else (false, false)

/-- The context accumulation of both rag functions in langchain_helper.py:
context_data starts empty and the page_content of every relevant document is
appended in retrieval-rank order with no separator. -/
def context_of (relevant_documents : List String) : String :=
  relevant_documents.foldl (fun acc page => acc ++ page) ""

/-- The final_prompt f-string of langchain_helper.py, reproduced exactly: the
literal opens with a double-quote character right after the triple quote, the
second and third lines carry the eight-space source indentation, and the
literal ends with a closing double-quote, a newline and eight spaces. -/
def final_prompt (prompt context_data : String) : String :=
  "\"Here is your question: " ++ prompt
    ++ "\n        We have the following information to answer it: " ++ context_data
    ++ ".\n        Use only the information provided here to answer the question. Do not go beyond this.\"\n        "

/-- LangChainHelper.rag_with_documents, from the retrieval step on: the
loading, splitting, embedding and FAISS retrieval are external, so the
retrieved documents arrive as the parameter relevant_documents (in rank
order) and the hosted chat call is the parameter chat; the function
concatenates the context, builds final_prompt and returns the chat answer. -/
def rag_with_documents (chat : String → String) (relevant_documents : List String)
    (prompt : String) : String :=
  chat (final_prompt prompt (context_of relevant_documents))

/-- LangChainHelper.rag_with_documents_from_text, from the retrieval step on:
identical prompt construction to rag_with_documents, over text content
supplied directly rather than loaded from a PDF path. -/
def rag_with_documents_from_text (chat : String → String)
    (relevant_documents : List String) (prompt : String) : String :=
  chat (final_prompt prompt (context_of relevant_documents))

/-- The prompt template exactly as the specification words state it, for
comparison with final_prompt: no leading quote character, no indentation, no
trailing quote or whitespace. -/
def specPromptTemplate (question context : String) : String :=
  "Here is your question: " ++ question
    ++ "\nWe have the following information to answer it: " ++ context
    ++ ".\nUse only the information provided here to answer the question. Do not go beyond this."

/-- Modelled from the spec: the text-splitting library
(RecursiveCharacterTextSplitter with chunk size 1000 and chunk overlap 0,
called by both rag functions of src/helpers/langchain_helper.py) is external
and its code is not under src/. Following the spec words, the text is split
preferentially at paragraph, then line, then word boundaries, falling back to
a hard cut only when no boundary exists within the limit, and the resulting
pieces are merged into chunks of at most 1000 characters with 0 characters of
overlap. splitKeepSep cuts a character list after every occurrence of the
separator, keeping the separator so that the pieces concatenate back to the
input. -/
def splitKeepSep (sep : List Char) (cs : List Char) : List (List Char) :=
  match cs with
  | [] => [[]]
  | c :: rest =>
    if h : sep ≠ [] ∧ sep.isPrefixOf (c :: rest) then
      sep :: splitKeepSep sep (List.drop sep.length (c :: rest))
    else
      match splitKeepSep sep rest with
      | [] => [[c]]
      | p :: ps => (c :: p) :: ps
termination_by cs.length
decreasing_by
  · simp only [List.length_drop, List.length_cons]
    have hl : 1 ≤ sep.length := by
      cases sep with
      | nil => exact absurd rfl h.1
      | cons a as => simp
    omega
  · simp

/-- Modelled from the spec: the hard cut fallback, slicing the text into
consecutive blocks of the chunk size (the last block shorter). -/
def hardCut (n : Nat) (cs : List Char) : List (List Char) :=
  if h : cs.length ≤ n ∨ n = 0 then [cs]
  else cs.take n :: hardCut n (cs.drop n)
termination_by cs.length
decreasing_by
  simp only [List.length_drop]
  omega

/-- Modelled from the spec: recursive splitting, trying the separators in
preference order; a piece within the limit is kept, a larger piece is split
by the next separator, and a piece no separator can break is hard cut. -/
def recursiveSplit (seps : List (List Char)) (n : Nat) (cs : List Char) :
    List (List Char) :=
  match seps with
  | [] => if cs.length ≤ n then [cs] else hardCut n cs
  | s :: rest =>
    (splitKeepSep s cs).flatMap
      (fun p => if p.length ≤ n then [p] else recursiveSplit rest n p)

/-- Modelled from the spec: greedy merge of consecutive pieces into chunks of
at most the chunk size with 0 overlap; a new chunk starts exactly when
appending the next piece would exceed the limit. -/
def mergeSplits (n : Nat) (acc : List Char) : List (List Char) → List (List Char)
  | [] => [acc]
  | p :: rest =>
    if acc.length + p.length ≤ n then mergeSplits n (acc ++ p) rest
    else acc :: mergeSplits n p rest

/-- Modelled from the spec: the whole chunking step applied by both rag
functions, with the spec boundaries (paragraph break, line break, space) and
chunk size 1000, overlap 0. -/
def chunkText (text : String) : List String :=
  (mergeSplits 1000 []
      (recursiveSplit [('\n' :: '\n' :: []), ('\n' :: []), (' ' :: [])] 1000
        text.data)).map (fun p => String.mk p)

/-- Concatenation of a list of pieces back into one character list. -/
def catPieces (ps : List (List Char)) : List Char :=
  ps.foldr (fun a b => a ++ b) []

theorem catPieces_cons (p : List Char) (ps : List (List Char)) :
    catPieces (p :: ps) = p ++ catPieces ps := rfl

theorem catPieces_append (a b : List (List Char)) :
    catPieces (a ++ b) = catPieces a ++ catPieces b := by
  induction a with
  | nil => rfl
  | cons p ps ih => simp [catPieces_cons, ih, List.append_assoc]

theorem catPieces_flatMap (f : List Char → List (List Char))
    (l : List (List Char)) :
    catPieces (l.flatMap f) = catPieces (l.map fun p => catPieces (f p)) := by
  induction l with
  | nil => rfl
  | cons p ps ih => simp [catPieces_append, catPieces_cons, ih]

/-- Every splitting pass of splitKeepSep preserves the text: the produced
pieces concatenate back to the input character list. -/
theorem splitKeepSep_cat (sep : List Char) (cs : List Char) :
    catPieces (splitKeepSep sep cs) = cs := by
  induction cs using splitKeepSep.induct sep with
  | case1 => simp [splitKeepSep, catPieces]
  | case2 c rest h ih =>
    rw [splitKeepSep]
    rw [dif_pos h]
    rw [catPieces_cons, ih]
    exact List.prefix_iff_eq_append.mp (List.isPrefixOf_iff_prefix.mp h.2)
  | case3 c rest h heq ih =>
    rw [splitKeepSep]
    rw [dif_neg h, heq]
    rw [heq] at ih
    simp [catPieces] at ih
    simp [catPieces, ih]
  | case4 c rest h p ps heq ih =>
    rw [splitKeepSep]
    rw [dif_neg h, heq]
    rw [heq] at ih
    rw [catPieces_cons] at ih
    rw [catPieces_cons]
    simp [← ih, List.append_assoc]

/-- The hard cut fallback also preserves the text. -/
theorem hardCut_cat (n : Nat) (cs : List Char) :
    catPieces (hardCut n cs) = cs := by
  induction cs using hardCut.induct n with
  | case1 cs h => simp [hardCut, h, catPieces]
  | case2 cs h ih =>
    rw [hardCut, dif_neg h, catPieces_cons, ih, List.take_append_drop]

/-- The recursive splitter preserves the text across all separator passes and
the hard cut fallback. -/
theorem recursiveSplit_cat (seps : List (List Char)) (n : Nat) (cs : List Char) :
    catPieces (recursiveSplit seps n cs) = cs := by
  induction seps generalizing cs with
  | nil =>
    by_cases h : cs.length ≤ n
    · simp [recursiveSplit, h, catPieces]
    · simp [recursiveSplit, h, hardCut_cat]
  | cons s rest ih =>
    show catPieces ((splitKeepSep s cs).flatMap
      (fun p => if p.length ≤ n then [p] else recursiveSplit rest n p)) = cs
    rw [catPieces_flatMap]
    have hmap : (splitKeepSep s cs).map
        (fun p => catPieces (if p.length ≤ n then [p] else recursiveSplit rest n p))
        = (splitKeepSep s cs).map id := by
      apply List.map_congr_left
      intro p _
      by_cases hpl : p.length ≤ n
      · simp [hpl, catPieces]
      · simp [hpl, ih]
    rw [hmap, List.map_id, splitKeepSep_cat]

/-- When all the pieces together fit in one chunk, the greedy merge returns
exactly one chunk carrying the whole text. -/
theorem mergeSplits_fits (n : Nat) (acc : List Char) (ps : List (List Char))
    (h : acc.length + (catPieces ps).length ≤ n) :
    mergeSplits n acc ps = [acc ++ catPieces ps] := by
  induction ps generalizing acc with
  | nil => simp [mergeSplits, catPieces]
  | cons p rest ih =>
    have hlen : (catPieces (p :: rest)).length
        = p.length + (catPieces rest).length := by
      simp [catPieces_cons]
    have h1 : acc.length + p.length ≤ n := by omega
    have h2 : (acc ++ p).length + (catPieces rest).length ≤ n := by
      simp only [List.length_append]
      omega
    simp only [mergeSplits, if_pos h1]
    rw [ih (acc ++ p) h2]
    simp [catPieces_cons, List.append_assoc]

/-- A string whose character list starts with the three characters of sk- is
truthy under the Python if data: test. -/
theorem truthy_of_sk (text : String) (h : pyStartsWith text "sk-" = true) :
    dataTruthy (some text) = true := by
  unfold pyStartsWith at h
  unfold dataTruthy
  cases hd : text.data with
  | nil => rw [hd] at h; simp [List.isPrefixOf] at h
  | cons c rest => simp [hd]

/-- When the user has no stored session and a truthy key is supplied,
check_user attempts manager construction with exactly that key, whatever the
outcome of the hosted validation call. -/
theorem check_user_attempts_validation (keyValid : String → Bool)
    (userName : String) (st : SessionMap) (user : Nat) (key : String)
    (hu : st user = none) (hk : dataTruthy (some key) = true) :
    (check_user keyValid userName st user (some key)).validatedKey = some key := by
  unfold check_user
  rw [hu]
  simp only [Option.isNone_none, if_pos, hk, if_true]
  cases h : OpenAIModelManager.create keyValid key <;> simp [h]

/-- C1 (counterexample): the claim says the transient audio file no longer
exists after every voice-message handling call, including on error; at the
concrete input where the transcription call raises, the handler raises and
the file is still on disk, because os.remove is placed after the with-block
with no try-finally around it. -/
theorem audio_handler_leak_on_error_cex :
    audio_handler true (Except.error ()) (fun t => Except.ok t) = (true, true) := rfl

/-- C1 (amended): after a voice-message handling call, the transient audio
file is gone from disk exactly when the call raised no error; it is removed
when transcription and the chat reply both succeed, and remains on disk when
either raises. -/
theorem audio_handler_cleanup_iff_no_error (transcribeResult : Except Unit String)
    (chatResult : String → Except Unit String) :
    (audio_handler true transcribeResult chatResult).2 = false ↔
      (audio_handler true transcribeResult chatResult).1 = false := by
  cases transcribeResult with
  | error e => simp [audio_handler]
  | ok t =>
    cases h : chatResult t with
    | error e => simp [audio_handler, h]
    | ok r => simp [audio_handler, h]

/-- C2 (counterexample): the claim says every text message beginning with
sk- is deleted and validated as a key; the concrete message sk-draw begins
with sk- yet is routed to the image-generation branch first (its lowercase
form contains draw), so it is neither deleted nor passed to validation. -/
theorem sk_draw_bypasses_key_entry_cex :
    pyStartsWith "sk-draw" "sk-" = true ∧
    (get_message (fun _ => true) (fun s => s) (fun s => (s, s)) "u" emptyMap 1
        none "sk-draw").deletedMessage = false ∧
    (get_message (fun _ => true) (fun s => s) (fun s => (s, s)) "u" emptyMap 1
        none "sk-draw").validatedKey = none := by
  refine ⟨by decide, by decide, by decide⟩

/-- C2 (amended): every inbound non-reply text message whose text begins with
sk- and whose lowercased text does not contain draw, sent by a user with no
stored session, is interpreted as an API key: the triggering message is
deleted from the chat and manager construction (Session Manager validation)
is attempted with exactly that text. -/
theorem sk_prefix_key_entry_amended (keyValid : String → Bool)
    (chatFn : String → String) (imageFn : String → String × String)
    (userName : String) (st : SessionMap) (user : Nat) (text : String)
    (h1 : pyStartsWith text "sk-" = true)
    (h2 : containsSub "draw".data (pyLower text) = false)
    (h3 : st user = none) :
    (get_message keyValid chatFn imageFn userName st user none text).deletedMessage
      = true ∧
    (get_message keyValid chatFn imageFn userName st user none text).validatedKey
      = some text := by
  have hroute : get_message_route none text = MsgAction.enterKey text := by
    unfold get_message_route
    rw [h2]
    simp [h1]
  unfold get_message
  rw [hroute]
  refine ⟨rfl, ?_⟩
  exact check_user_attempts_validation keyValid userName st user text h3
    (truthy_of_sk text h1)

theorem sk_prefix_key_entry_amended_witness :
    pyStartsWith "sk-abc123" "sk-" = true ∧
    (get_message (fun _ => true) (fun s => s) (fun s => (s, s)) "u" emptyMap 1
        none "sk-abc123").deletedMessage = true ∧
    (get_message (fun _ => true) (fun s => s) (fun s => (s, s)) "u" emptyMap 1
        none "sk-abc123").validatedKey = some "sk-abc123" := by
  have h := sk_prefix_key_entry_amended (fun _ => true) (fun s => s)
    (fun s => (s, s)) "u" emptyMap 1 "sk-abc123" (by decide) (by decide) rfl
  exact ⟨by decide, h.1, h.2⟩

/-- C3: validateAndCreate is atomic with respect to the per-user session map:
when the immediate key check fails during manager construction, the exception
propagates (InvalidKey), the session map is unchanged, no reply (in
particular no success echo) is sent; when it succeeds, the session is stored
for exactly that user id and the masked success echo plus greeting are
sent. -/
theorem validateAndCreate_atomic (keyValid : String → Bool) (userName : String)
    (st : SessionMap) (user : Nat) (key : String)
    (hu : st user = none) (hk : key.data ≠ []) :
    (keyValid key = false →
      check_user keyValid userName st user (some key) =
        { state := st, replies := [], raised := true,
          validatedKey := some key, deletedMessage := false }) ∧
    (keyValid key = true →
      (check_user keyValid userName st user (some key)).state user = some key ∧
      (∀ u, u ≠ user →
        (check_user keyValid userName st user (some key)).state u = st u) ∧
      (check_user keyValid userName st user (some key)).replies =
        [Reply.text (maskKey key), Reply.markdown (helloText userName)] ∧
      (check_user keyValid userName st user (some key)).raised = false) := by
  have hie : key.data.isEmpty = false := by
    cases hd : key.data with
    | nil => exact absurd hd hk
    | cons c rest => rfl
  have htruthy : dataTruthy (some key) = true := by
    show (!key.data.isEmpty) = true
    rw [hie]
    rfl
  constructor
  · intro hv
    have hc : OpenAIModelManager.create keyValid key = Except.error () := by
      simp [OpenAIModelManager.create, hv]
    unfold check_user
    rw [hu]
    simp only [Option.isNone_none, if_pos, htruthy, if_true, Option.getD_some]
    rw [hc]
  · intro hv
    have hc : OpenAIModelManager.create keyValid key = Except.ok key := by
      simp [OpenAIModelManager.create, hv]
    unfold check_user
    rw [hu]
    simp only [Option.isNone_none, if_pos, htruthy, if_true, Option.getD_some]
    rw [hc]
    refine ⟨by simp, ?_, rfl, rfl⟩
    intro u hne
    simp [hne]

theorem validateAndCreate_atomic_witness :
    ((fun k => k == "sk-good") "sk-bad") = false ∧
    check_user (fun k => k == "sk-good") "u" emptyMap 1 (some "sk-bad") =
      { state := emptyMap, replies := [], raised := true,
        validatedKey := some "sk-bad", deletedMessage := false } := by
  have h := validateAndCreate_atomic (fun k => k == "sk-good") "u" emptyMap 1
    "sk-bad" rfl (by decide)
  exact ⟨by decide, h.1 (by decide)⟩

/-- C4: for every inbound document message, dispatch branches on the declared
MIME type: text/plain routes the downloaded content to
rag_with_documents_from_text (answerFromText), application/pdf routes the
file path to rag_with_documents (answerFromFile), and every other MIME type
produces the reply Please send the file in PDF or TXT format with no model
call made (the rejected action performs no retrieval or chat call) and no
change to any state. -/
theorem handle_file_mime_dispatch (ragTextFn ragFileFn : String → String → String)
    (caption : Option String) (content filePath mime : String)
    (h1 : mime ≠ "text/plain") (h2 : mime ≠ "application/pdf") :
    handle_file ragTextFn ragFileFn "text/plain" caption content filePath =
      (FileAction.answerFromText content (caption.getD "Summarize this file"),
        [Reply.text (ragTextFn content (caption.getD "Summarize this file"))]) ∧
    handle_file ragTextFn ragFileFn "application/pdf" caption content filePath =
      (FileAction.answerFromFile filePath (caption.getD "Summarize this file"),
        [Reply.text (ragFileFn filePath (caption.getD "Summarize this file"))]) ∧
    handle_file ragTextFn ragFileFn mime caption content filePath =
      (FileAction.rejected,
        [Reply.text "Please send the file in PDF or TXT format"]) := by
  refine ⟨?_, ?_, ?_⟩
  · cases caption <;> simp [handle_file]
  · cases caption <;> simp [handle_file]
  · cases caption <;> simp [handle_file, h1, h2]

theorem handle_file_mime_dispatch_witness :
    ("application/msword" ≠ "text/plain") ∧
    handle_file (fun a b => a ++ b) (fun a b => a ++ b) "application/msword"
        (some "cap") "c" "p" =
      (FileAction.rejected,
        [Reply.text "Please send the file in PDF or TXT format"]) := by
  refine ⟨by decide, ?_⟩
  exact (handle_file_mime_dispatch (fun a b => a ++ b) (fun a b => a ++ b)
    (some "cap") "c" "p" "application/msword" (by decide) (by decide)).2.2

/-- C5 (counterexample): the claim says the prompt sent to chat equals
exactly the spec template; at the concrete question Q with one retrieved
chunk ctx the prompt the code builds differs from the template (the f-string
opens with an extra double-quote character, indents its continuation lines
with eight spaces, and ends with a closing quote, newline and indentation). -/
theorem rag_prompt_template_cex :
    rag_with_documents_from_text (fun s => s) ["ctx"] "Q" ≠
      specPromptTemplate "Q" "ctx" := by decide

/-- C5 (amended): for every question-answering call the prompt sent to the
chat operation equals the template the source literal actually produces: a
leading double-quote character, the question, the second and third template
lines indented by eight spaces, the retrieved chunks concatenated in
retrieval-rank order with no separator as context, a closing double-quote, a
newline and eight trailing spaces. -/
theorem rag_prompt_shape_amended (chat : String → String) (docs : List String)
    (q : String) :
    rag_with_documents chat docs q =
      chat ("\"Here is your question: " ++ q
        ++ "\n        We have the following information to answer it: "
        ++ String.join docs
        ++ ".\n        Use only the information provided here to answer the question. Do not go beyond this.\"\n        ") ∧
    rag_with_documents_from_text chat docs q =
      chat ("\"Here is your question: " ++ q
        ++ "\n        We have the following information to answer it: "
        ++ String.join docs
        ++ ".\n        Use only the information provided here to answer the question. Do not go beyond this.\"\n        ") := by
  have hctx : context_of docs = String.join docs := rfl
  constructor <;>
    simp [rag_with_documents, rag_with_documents_from_text, final_prompt, hctx]

/-- C6: the off handler itself does remove the session of an Active user and
confirms the deletion, but the command is not reachable through the bot
dispatch: no registration of main.configure_handlers matches an inbound off
command (the only CommandHandler is start and the text handler excludes
commands), so the claim that the forget-key command is reachable fails
against the code. -/
theorem off_command_not_dispatched :
    (∀ h ∈ configure_handlers, handles h (UpdateKind.commandMsg "off") = false) ∧
    (∀ (st : SessionMap) (user : Nat) (key : String), st user = some key →
      (off st user).1 user = none ∧
      (off st user).2 = [Reply.text "Your API Key deleted"]) := by
  constructor
  · decide
  · intro st user key hk
    unfold off
    rw [hk]
    simp

theorem off_command_not_dispatched_witness :
    ((fun u => if u = 1 then some "sk-key" else none) : SessionMap) 1 = some "sk-key" ∧
    (off (fun u => if u = 1 then some "sk-key" else none) 1).1 1 = none ∧
    (off (fun u => if u = 1 then some "sk-key" else none) 1).2 =
      [Reply.text "Your API Key deleted"] := by
  have h := off_command_not_dispatched.2
    (fun u => if u = 1 then some "sk-key" else none) 1 "sk-key" rfl
  exact ⟨rfl, h.1, h.2⟩

/-- C7: for every text content whose length is under 1000 characters, the
chunking step (splitter with chunk size 1000 and overlap 0) yields exactly
one chunk whose text equals the input content. -/
theorem chunk_short_text_single_chunk (text : String) (h : text.length < 1000) :
    chunkText text = [text] := by
  have hcat : catPieces (recursiveSplit
      [('\n' :: '\n' :: []), ('\n' :: []), (' ' :: [])] 1000 text.data)
      = text.data := recursiveSplit_cat _ _ _
  have hlen : ([] : List Char).length + (catPieces (recursiveSplit
      [('\n' :: '\n' :: []), ('\n' :: []), (' ' :: [])] 1000 text.data)).length
      ≤ 1000 := by
    rw [hcat]
    have hdl : text.data.length = text.length := rfl
    simp only [List.length_nil, Nat.zero_add, hdl]
    omega
  unfold chunkText
  rw [mergeSplits_fits _ _ _ hlen, hcat]
  simp

theorem chunk_short_text_single_chunk_witness :
    ("hello world".length < 1000) ∧ chunkText "hello world" = ["hello world"] :=
  ⟨by decide, chunk_short_text_single_chunk "hello world" (by decide)⟩

/-- C8: for every inbound text message whose text does not begin with sk-,
whatever the session state of the user (no session, a stored session) and
whether or not the message is a reply, the message is never passed to the
key-validation path: no manager construction (Session Manager validation) is
attempted with it. -/
theorem non_sk_text_never_validated (keyValid : String → Bool)
    (chatFn : String → String) (imageFn : String → String × String)
    (userName : String) (st : SessionMap) (user : Nat)
    (replyToText : Option String) (text : String)
    (h : pyStartsWith text "sk-" = false) :
    (get_message keyValid chatFn imageFn userName st user replyToText text).validatedKey
      = none := by
  unfold get_message
  unfold get_message_route
  cases replyToText with
  | some rt =>
    cases st user <;> simp
  | none =>
    by_cases hd : containsSub "draw".data (pyLower text) = true
    · simp only [hd, if_true]
      cases st user <;> simp
    · simp only [hd, if_false, Bool.not_eq_true] at hd ⊢
      simp only [hd, h, Bool.false_eq_true, if_false]
      cases st user <;> simp

theorem non_sk_text_never_validated_witness :
    pyStartsWith "hello" "sk-" = false ∧
    (get_message (fun _ => true) (fun s => s) (fun s => (s, s)) "u" emptyMap 1
        none "hello").validatedKey = none :=
  ⟨by decide, non_sk_text_never_validated (fun _ => true) (fun s => s)
    (fun s => (s, s)) "u" emptyMap 1 none "hello" (by decide)⟩

/-- C9: every inbound text message that is a reply to an earlier message is
routed to the chat operation with the combined prompt, the replied text, the
words in addition to, and the message text, bypassing both the draw
image-generation branch and the sk- key-entry branch regardless of the
message content. -/
theorem reply_message_always_chat (repliedText text : String) :
    get_message_route (some repliedText) text =
      MsgAction.chat (repliedText ++ " in addition to " ++ text) := rfl

/-- C10: for every inbound document message carrying no caption, the question
passed to the retrieval flow (answerFromText for text/plain, answerFromFile
for application/pdf) defaults to the fixed string Summarize this file. -/
theorem missing_caption_defaults_summarize
    (ragTextFn ragFileFn : String → String → String) (content filePath : String) :
    (handle_file ragTextFn ragFileFn "text/plain" none content filePath).1 =
      FileAction.answerFromText content "Summarize this file" ∧
    (handle_file ragTextFn ragFileFn "application/pdf" none content filePath).1 =
      FileAction.answerFromFile filePath "Summarize this file" := by
  constructor <;> rfl

end TelegrativeAI
